import Mathlib

/-
Shallow embedding of `src/homework.py` (a Telegram homework-status polling
bot).  Python JSON-like values are modelled by the mutual inductive
`PyVal`/`PyList`/`PyDict`; Python exceptions by `PyError`; the outcomes of
the two external effects (the HTTP fetch performed by `requests.get` and
the Telegram send performed by `bot.send_message`) are supplied as oracle
values `FetchOutcome`/`SendOutcome`.  Observable actions (HTTP fetches and
notification sends) are recorded as `Event`s so that theorems can count
them.  Module-level environment variables become the `Config` structure,
and the mutable locals of `main`'s loop become the `LoopState` structure.
-/

mutual

inductive PyVal where
  | pnone
  | int (n : Int)
  | str (s : String)
  | list (xs : PyList)
  | dict (es : PyDict)

inductive PyList where
  | nil
  | cons (hd : PyVal) (tl : PyList)

inductive PyDict where
  | dnil
  | dcons (key : String) (val : PyVal) (tl : PyDict)

end

mutual

def PyVal.decEq : (a b : PyVal) → Decidable (a = b)
  | .pnone, .pnone => isTrue rfl
  | .pnone, .int _ => isFalse (fun h => PyVal.noConfusion h)
  | .pnone, .str _ => isFalse (fun h => PyVal.noConfusion h)
  | .pnone, .list _ => isFalse (fun h => PyVal.noConfusion h)
  | .pnone, .dict _ => isFalse (fun h => PyVal.noConfusion h)
  | .int _, .pnone => isFalse (fun h => PyVal.noConfusion h)
  | .int _, .str _ => isFalse (fun h => PyVal.noConfusion h)
  | .int _, .list _ => isFalse (fun h => PyVal.noConfusion h)
  | .int _, .dict _ => isFalse (fun h => PyVal.noConfusion h)
  | .str _, .pnone => isFalse (fun h => PyVal.noConfusion h)
  | .str _, .int _ => isFalse (fun h => PyVal.noConfusion h)
  | .str _, .list _ => isFalse (fun h => PyVal.noConfusion h)
  | .str _, .dict _ => isFalse (fun h => PyVal.noConfusion h)
  | .list _, .pnone => isFalse (fun h => PyVal.noConfusion h)
  | .list _, .int _ => isFalse (fun h => PyVal.noConfusion h)
  | .list _, .str _ => isFalse (fun h => PyVal.noConfusion h)
  | .list _, .dict _ => isFalse (fun h => PyVal.noConfusion h)
  | .dict _, .pnone => isFalse (fun h => PyVal.noConfusion h)
  | .dict _, .int _ => isFalse (fun h => PyVal.noConfusion h)
  | .dict _, .str _ => isFalse (fun h => PyVal.noConfusion h)
  | .dict _, .list _ => isFalse (fun h => PyVal.noConfusion h)
  | .int n, .int m =>
    match decEq n m with
    | isTrue h => isTrue (by rw [h])
    | isFalse h => isFalse (by intro hh; injection hh with h2; exact h h2)
  | .str s, .str t =>
    match decEq s t with
    | isTrue h => isTrue (by rw [h])
    | isFalse h => isFalse (by intro hh; injection hh with h2; exact h h2)
  | .list xs, .list ys =>
    match PyList.decEq xs ys with
    | isTrue h => isTrue (by rw [h])
    | isFalse h => isFalse (by intro hh; injection hh with h2; exact h h2)
  | .dict xs, .dict ys =>
    match PyDict.decEq xs ys with
    | isTrue h => isTrue (by rw [h])
    | isFalse h => isFalse (by intro hh; injection hh with h2; exact h h2)

def PyList.decEq : (xs ys : PyList) → Decidable (xs = ys)
  | .nil, .nil => isTrue rfl
  | .nil, .cons _ _ => isFalse (fun h => PyList.noConfusion h)
  | .cons _ _, .nil => isFalse (fun h => PyList.noConfusion h)
  | .cons x xs, .cons y ys =>
    match PyVal.decEq x y, PyList.decEq xs ys with
    | isTrue h1, isTrue h2 => isTrue (by rw [h1, h2])
    | isFalse h1, _ => isFalse (by intro hh; injection hh with a b; exact h1 a)
    | _, isFalse h2 => isFalse (by intro hh; injection hh with a b; exact h2 b)

def PyDict.decEq : (xs ys : PyDict) → Decidable (xs = ys)
  | .dnil, .dnil => isTrue rfl
  | .dnil, .dcons _ _ _ => isFalse (fun h => PyDict.noConfusion h)
  | .dcons _ _ _, .dnil => isFalse (fun h => PyDict.noConfusion h)
  | .dcons k1 v1 xs, .dcons k2 v2 ys =>
    match decEq k1 k2, PyVal.decEq v1 v2, PyDict.decEq xs ys with
    | isTrue h1, isTrue h2, isTrue h3 => isTrue (by rw [h1, h2, h3])
    | isFalse h1, _, _ => isFalse (by intro hh; injection hh with a b c; exact h1 a)
    | _, isFalse h2, _ => isFalse (by intro hh; injection hh with a b c; exact h2 b)
    | _, _, isFalse h3 => isFalse (by intro hh; injection hh with a b c; exact h3 c)

end

instance : DecidableEq PyVal := PyVal.decEq

instance : DecidableEq PyList := PyList.decEq

instance : DecidableEq PyDict := PyDict.decEq

/-- Python `type(v).__name__` for the embedded value kinds. -/
def PyVal.typeName : PyVal → String
  | .pnone => "NoneType"
  | .int _ => "int"
  | .str _ => "str"
  | .list _ => "list"
  | .dict _ => "dict"

mutual

/-- Python `repr(v)` rendering of an embedded value. -/
def PyVal.pyRepr : PyVal → String
  | .pnone => "None"
  | .int n => toString n
  | .str s => "\x27" ++ s ++ "\x27"
  | .list xs => "[" ++ PyList.reprItems xs ++ "]"
  | .dict es => "\x7b" ++ PyDict.reprItems es ++ "\x7d"

def PyList.reprItems : PyList → String
  | .nil => ""
  | .cons x .nil => PyVal.pyRepr x
  | .cons x tl => PyVal.pyRepr x ++ ", " ++ PyList.reprItems tl

def PyDict.reprItems : PyDict → String
  | .dnil => ""
  | .dcons k v .dnil => "\x27" ++ k ++ "\x27: " ++ PyVal.pyRepr v
  | .dcons k v tl => "\x27" ++ k ++ "\x27: " ++ PyVal.pyRepr v ++ ", " ++ PyDict.reprItems tl

end

/-- Python `str(v)` (as used by f-string interpolation) for an embedded value. -/
def PyVal.pyStr : PyVal → String
  | .pnone => "None"
  | .int n => toString n
  | .str s => s
  | .list xs => PyVal.pyRepr (.list xs)
  | .dict es => PyVal.pyRepr (.dict es)

/-- Python dictionary key lookup (keys in a Python dict are unique; the
embedding looks up the first matching key). -/
def PyDict.lookup : PyDict → String → Option PyVal
  | .dnil, _ => Option.none
  | .dcons k v tl, key => if k = key then some v else tl.lookup key

/-- Python exceptions raised by the program, with their message argument. -/
inductive PyError where
  | typeError (msg : String)
  | keyError (msg : String)
  | valueError (msg : String)
  | connectionError (msg : String)
  | runtimeError (msg : String)
  | attributeError (msg : String)
  | tokenError
deriving DecidableEq

/-- Python `str(error)`: the message, except that `str` of a `KeyError`
wraps its argument in quotes (`repr` of the key), and `TokenError()` is
raised with no argument so its `str` is empty. -/
def PyError.str : PyError → String
  | .typeError m => m
  | .keyError m => "\x27" ++ m ++ "\x27"
  | .valueError m => m
  | .connectionError m => m
  | .runtimeError m => m
  | .attributeError m => m
  | .tokenError => ""

/-- Result classifier for the embedded fallible functions. -/
def isErr {ε α : Type} : Except ε α → Bool
  | .error _ => true
  | .ok _ => false

/-- Python `homework.get(key)`: on a dict returns the value or `None`;
on any non-dict value it raises `AttributeError`. -/
def PyVal.dget : PyVal → String → Except PyError PyVal
  | .dict es, k => .ok ((es.lookup k).getD .pnone)
  | v, _ =>
    .error (.attributeError
      ("\x27" ++ v.typeName ++ "\x27 object has no attribute \x27get\x27"))

/-- Log severities used by the program. -/
inductive LogLevel where
  | debug
  | info
  | error
  | critical
deriving DecidableEq

/-- Environment-sourced configuration: the three module-level secrets read
by `os.getenv`, each absent (`None`) or a string. -/
structure Config where
  PRACTICUM_TOKEN : Option String
  TELEGRAM_TOKEN : Option String
  TELEGRAM_CHAT_ID : Option String
deriving DecidableEq

/-- Python truthiness of an env value: `None` and the empty string are
falsy, every other string is truthy. -/
def pyTruthy : Option String → Bool
  | Option.none => false
  | some s => if s = "" then false else true

/-- Python f-string interpolation of a possibly-`None` env value. -/
def optEnvStr : Option String → String
  | Option.none => "None"
  | some s => s

/-- The `tokens` dict built inside `check_tokens`, in source order. -/
def tokens (c : Config) : List (String × Option String) :=
  [("PRACTICUM_TOKEN", c.PRACTICUM_TOKEN),
   ("TELEGRAM_TOKEN", c.TELEGRAM_TOKEN),
   ("TELEGRAM_CHAT_ID", c.TELEGRAM_CHAT_ID)]

/-- The `missing_tokens` comprehension: names whose value is falsy. -/
def missing_tokens (c : Config) : List String :=
  ((tokens c).filter (fun kv => !pyTruthy kv.2)).map Prod.fst

/-- Python `", ".join(l)`. -/
def joinComma : List String → String
  | [] => ""
  | [x] => x
  | x :: xs => x ++ ", " ++ joinComma xs

/-- Embedding of `check_tokens`: the boolean result together with the log
records it emits. -/
def check_tokens (c : Config) : Bool × List (LogLevel × String) :=
  if missing_tokens c ≠ [] then
    (false,
     [(LogLevel.critical,
       "Отсутствуют обязательные токены: " ++ joinComma (missing_tokens c))])
  else
    (true, [])

/-- Oracle for one `bot.send_message` call: it either succeeds, raises
`telebot.apihelper.ApiException`, or raises `requests.RequestException`. -/
inductive SendOutcome where
  | success
  | apiException (msg : String)
  | requestException (msg : String)
deriving DecidableEq

/-- The exceptions the underlying Telegram send can raise. -/
inductive SendError where
  | apiException (msg : String)
  | requestException (msg : String)
deriving DecidableEq

/-- The raw `bot.send_message` call as a fallible operation. -/
def bot_send_message (o : SendOutcome) : Except SendError Unit :=
  match o with
  | .success => .ok ()
  | .apiException m => .error (.apiException m)
  | .requestException m => .error (.requestException m)

/-- Embedding of `send_message`: wraps the raw send, catching both
exception kinds and converting each to `false` plus an error log; on
success returns `true` plus a debug log.  Totality of this function is the
embedded form of never raising to the caller. -/
def send_message (o : SendOutcome) (message : String) : Bool × List (LogLevel × String) :=
  match bot_send_message o with
  | .ok _ =>
    (true, [(LogLevel.debug, "Бот отправил сообщение \"" ++ message ++ "\"")])
  | .error (.apiException e) =>
    (false, [(LogLevel.error, "Ошибка Telegram API при отправке сообщения: " ++ e)])
  | .error (.requestException e) =>
    (false, [(LogLevel.error, "Сетевая ошибка при отправке сообщения в Telegram: " ++ e)])

/-- Boolean result of `send_message`, as used by its callers. -/
def sendOk (o : SendOutcome) (message : String) : Bool :=
  (send_message o message).1

/-- The module constant `ENDPOINT`. -/
def ENDPOINT : String := "https://practicum.yandex.ru/api/user_api/homework_statuses/"

/-- Python `repr` of the module-level `HEADERS` dict. -/
def headersRepr (c : Config) : String :=
  "\x7b\x27Authorization\x27: \x27OAuth " ++ optEnvStr c.PRACTICUM_TOKEN ++ "\x27\x7d"

/-- Python `repr` of the `params` dict built in `get_api_answer`. -/
def paramsRepr (current_timestamp : Int) : String :=
  "\x7b\x27from_date\x27: " ++ toString current_timestamp ++ "\x7d"

instance {ε α : Type} [DecidableEq ε] [DecidableEq α] : DecidableEq (Except ε α) := fun a b =>
  match a, b with
  | .ok x, .ok y =>
    if h : x = y then isTrue (by rw [h])
    else isFalse (by intro hh; injection hh; contradiction)
  | .error x, .error y =>
    if h : x = y then isTrue (by rw [h])
    else isFalse (by intro hh; injection hh; contradiction)
  | .ok _, .error _ => isFalse (fun h => Except.noConfusion h)
  | .error _, .ok _ => isFalse (fun h => Except.noConfusion h)

/-- Oracle for one `requests.get` call: either the request raises
`requests.RequestException`, or an HTTP response arrives with a status
code and a body whose JSON parse succeeds or fails. -/
inductive FetchOutcome where
  | requestException (msg : String)
  | response (status_code : Nat) (body : Except String PyVal)
deriving DecidableEq

/-- Observable kinds of notification sends, tagged by call site. -/
inductive SendKind where
  | status
  | recovery
  | errorNotice
deriving DecidableEq

/-- Observable actions of one run: HTTP fetches (with their `from_date`
query parameter) and notification sends (with message and outcome). -/
inductive Event where
  | fetch (from_date : Int)
  | send (kind : SendKind) (message : String) (ok : Bool)
deriving DecidableEq

/-- Number of send events of a given kind in a trace. -/
def countSends (evs : List Event) (k : SendKind) : Nat :=
  (evs.filter (fun e =>
    match e with
    | Event.send k2 _ _ => k2 == k
    | _ => false)).length

/-- Embedding of `get_api_answer`: issues one fetch (recorded as an
event), raises `RuntimeError` on a request exception, `ConnectionError`
on a non-200 status and on a JSON parse failure, and otherwise returns
the parsed body. -/
def get_api_answer (fo : FetchOutcome) (c : Config) (current_timestamp : Int) :
    Except PyError PyVal × List Event :=
  let ev := [Event.fetch current_timestamp]
  match fo with
  | .requestException m =>
    (.error (.runtimeError
      ("Ошибка при запросе к API " ++ ENDPOINT ++ ", headers=" ++ headersRepr c ++
       ", params=" ++ paramsRepr current_timestamp ++ ". Ошибка: " ++ m)), ev)
  | .response code body =>
    if code ≠ 200 then
      (.error (.connectionError
        ("Эндпоинт " ++ ENDPOINT ++ " вернул код " ++ toString code ++
         ". headers=" ++ headersRepr c ++ ", params=" ++ paramsRepr current_timestamp)), ev)
    else
      match body with
      | .ok r => (.ok r, ev)
      | .error m =>
        (.error (.connectionError
          ("Ошибка парсинга JSON от " ++ ENDPOINT ++ ", headers=" ++ headersRepr c ++
           ", params=" ++ paramsRepr current_timestamp ++ ". Ошибка: " ++ m)), ev)

/-- Embedding of `check_response`: requires a dict, then the keys
`homeworks` and `current_date` (in that order), then that the
`homeworks` value is a list, which it returns unchanged. -/
def check_response (response : PyVal) : Except PyError PyList :=
  match response with
  | .dict es =>
    match es.lookup "homeworks", es.lookup "current_date" with
    | Option.none, _ =>
      .error (.keyError "В ответе API отсутствует ключ: homeworks")
    | some _, Option.none =>
      .error (.keyError "В ответе API отсутствует ключ: current_date")
    | some (.list homeworks), some _ => .ok homeworks
    | some hw, some _ =>
      .error (.typeError
        ("Ключ \"homeworks\" должен содержать список. Получен " ++ hw.typeName))
  | _ =>
    .error (.typeError
      ("Ответ API должен быть словарем, получен. Получен " ++ response.typeName))

/-- The module constant `HOMEWORK_VERDICTS`. -/
def HOMEWORK_VERDICTS : List (String × String) :=
  [("approved", "Работа проверена: ревьюеру всё понравилось. Ура!"),
   ("reviewing", "Работа взята на проверку ревьюером."),
   ("rejected", "Работа проверена: у ревьюера есть замечания.")]

/-- Embedding of `parse_status`: requires a dict with `homework_name` and
`status` (in that order); the status must be a key of
`HOMEWORK_VERDICTS` (so any non-string status fails the membership
test); returns the populated notification template. -/
def parse_status (homework : PyVal) : Except PyError String :=
  match homework with
  | .dict es =>
    match es.lookup "homework_name", es.lookup "status" with
    | Option.none, _ =>
      .error (.keyError "В домашней работе отсутствует поле: homework_name")
    | some _, Option.none =>
      .error (.keyError "В домашней работе отсутствует поле: status")
    | some homework_name, some status =>
      match status with
      | .str s =>
        match HOMEWORK_VERDICTS.lookup s with
        | some verdict =>
          .ok ("Изменился статус проверки работы \"" ++ homework_name.pyStr ++ "\". " ++ verdict)
        | Option.none =>
          .error (.valueError ("Неожиданный статус домашней работы: " ++ status.pyStr))
      | _ =>
        .error (.valueError ("Неожиданный статус домашней работы: " ++ status.pyStr))
  | _ =>
    .error (.typeError
      ("Домашняя работа должна быть словарем. Получен " ++ homework.typeName))

/-- Embedding of `process_homeworks`: fetches, validates, and if the list
is non-empty compares the first record's raw `get('status')` value with
the tracked status; on a difference it formats and sends, returning the
new status only when the send succeeded.  Python exceptions become the
`Except.error` branch; the event list records the fetch and any send. -/
def process_homeworks (fo : FetchOutcome) (so : SendOutcome) (c : Config)
    (current_timestamp : Int) (last_homework_status : PyVal) :
    Except PyError PyVal × List Event :=
  match get_api_answer fo c current_timestamp with
  | (.error e, ev) => (.error e, ev)
  | (.ok response, ev) =>
    match check_response response with
    | .error e => (.error e, ev)
    | .ok homeworks =>
      match homeworks with
      | .cons homework _ =>
        match homework.dget "status" with
        | .error e => (.error e, ev)
        | .ok current_status =>
          if current_status ≠ last_homework_status then
            match parse_status homework with
            | .error e => (.error e, ev)
            | .ok message =>
              let ok := sendOk so message
              let ev2 := ev ++ [Event.send SendKind.status message ok]
              if ok then (.ok current_status, ev2)
              else (.ok last_homework_status, ev2)
          else (.ok last_homework_status, ev)
      | .nil => (.ok last_homework_status, ev)

/-- Embedding of `handle_recovery`: when a previous error is tracked
(truthy), sends one recovery notice and returns `None` whatever the send
outcome was (the `return None` in the source sits outside the
`if send_message(...)` block); otherwise returns the input unchanged. -/
def handle_recovery (so : SendOutcome) (previous_error : Option String) :
    Option String × List Event :=
  if pyTruthy previous_error then
    let recovery_msg := "Ошибка исправлена: " ++ optEnvStr previous_error
    (Option.none, [Event.send SendKind.recovery recovery_msg (sendOk so recovery_msg)])
  else
    (previous_error, [])

/-- Embedding of `handle_error`: when `str(error)` differs from the
tracked previous error it attempts one notification and returns the new
string only on a successful send; otherwise (equal strings) it attempts
nothing and returns the input unchanged. -/
def handle_error (so : SendOutcome) (error : PyError) (previous_error : Option String) :
    Option String × List Event :=
  let error_msg := "Сбой в работе программы: " ++ error.str
  if some error.str ≠ previous_error then
    let ok := sendOk so error_msg
    if ok then (some error.str, [Event.send SendKind.errorNotice error_msg ok])
    else (previous_error, [Event.send SendKind.errorNotice error_msg ok])
  else
    (previous_error, [])

/-- Oracle values consumed by one loop iteration: the fetch outcome and
the send outcome for each of the three possible send call sites. -/
structure IterEnv where
  fetch : FetchOutcome
  sendStatus : SendOutcome
  sendRecovery : SendOutcome
  sendError : SendOutcome
deriving DecidableEq

/-- The mutable locals of `main`'s loop. -/
structure LoopState where
  current_timestamp : Int
  previous_error : Option String
  last_homework_status : PyVal
deriving DecidableEq

/-- One iteration of `main`'s `while True` body.  The source calls
`process_homeworks(bot, current_timestamp, last_homework_status)` as a
bare statement and discards its return value, so `last_homework_status`
is never reassigned here; only `previous_error` is. -/
def mainStep (env : IterEnv) (c : Config) (s : LoopState) : LoopState × List Event :=
  match process_homeworks env.fetch env.sendStatus c s.current_timestamp s.last_homework_status with
  | (.ok _, ev1) =>
    let r := handle_recovery env.sendRecovery s.previous_error
    ({ s with previous_error := r.1 }, ev1 ++ r.2)
  | (.error e, ev1) =>
    let r := handle_error env.sendError e s.previous_error
    ({ s with previous_error := r.1 }, ev1 ++ r.2)

/-- Finitely many iterations of the loop, driven by a list of per-iteration
oracle environments. -/
def runLoop (c : Config) (envs : List IterEnv) (s : LoopState) : LoopState × List Event :=
  match envs with
  | [] => (s, [])
  | e :: rest =>
    let p1 := mainStep e c s
    let p2 := runLoop c rest p1.1
    (p2.1, p1.2 ++ p2.2)

/-- Embedding of `main` (renamed because Lean reserves `main` for entry
points): raises `TokenError` before any iteration when `check_tokens`
fails; otherwise initializes the loop locals (timestamp captured once, no
previous error, no tracked status) and runs the loop. -/
def mainProgram (c : Config) (now : Int) (envs : List IterEnv) :
    Except PyError (LoopState × List Event) :=
  if (check_tokens c).1 = false then
    .error .tokenError
  else
    .ok (runLoop c envs
      { current_timestamp := now
        previous_error := Option.none
        last_homework_status := PyVal.pnone })

/-- Spec-side failure predicate for claim C5, written from the spec's
words (section 4.2): the validator must fail exactly when the response is
not a mapping, a required key (`homeworks`, `current_date`) is absent, or
the `homeworks` value is not a sequence. -/
def spec_validate_fails (response : PyVal) : Bool :=
  match response with
  | .dict es =>
    (es.lookup "homeworks").isNone || (es.lookup "current_date").isNone ||
      (match es.lookup "homeworks" with
       | some (.list _) => false
       | _ => true)
  | _ => true

/-- Spec-side failure predicate for claim C6, written from the spec's
words (section 4.3): the formatter must fail exactly when the record is
not a mapping, lacks `homework_name` or `status`, or has a status outside
`approved`/`reviewing`/`rejected`. -/
def spec_format_fails (homework : PyVal) : Bool :=
  match homework with
  | .dict es =>
    (es.lookup "homework_name").isNone || (es.lookup "status").isNone ||
      (match es.lookup "status" with
       | some (.str s) => !(s == "approved" || s == "reviewing" || s == "rejected")
       | _ => true)
  | _ => true

/-- Substring relation on strings, used to state that a log line names a
missing variable. -/
def strContains (s sub : String) : Prop :=
  ∃ pre post, s.data = pre ++ sub.data ++ post

/-- Sample homework record used in the spec's end-to-end scenario. -/
def hw1 : PyVal :=
  PyVal.dict (.dcons "homework_name" (PyVal.str "hw1")
    (.dcons "status" (PyVal.str "approved") .dnil))

/-- Sample record that is a mapping but lacks the `status` key. -/
def hwNoStatus : PyVal :=
  PyVal.dict (.dcons "homework_name" (PyVal.str "hw1") .dnil)

/-- Well-formed API response carrying `hw1`. -/
def goodResponse : PyVal :=
  PyVal.dict (.dcons "homeworks" (PyVal.list (.cons hw1 .nil))
    (.dcons "current_date" (PyVal.int 1000) .dnil))

/-- Well-formed API response with an empty homeworks list. -/
def emptyResponse : PyVal :=
  PyVal.dict (.dcons "homeworks" (PyVal.list .nil)
    (.dcons "current_date" (PyVal.int 1000) .dnil))

/-- Well-formed API response whose first record lacks `status`. -/
def respNoStatus : PyVal :=
  PyVal.dict (.dcons "homeworks" (PyVal.list (.cons hwNoStatus .nil))
    (.dcons "current_date" (PyVal.int 1000) .dnil))

/-- Configuration with all three secrets present and non-empty. -/
def cfgAll : Config := ⟨some "p", some "t", some "c"⟩

/-- Iteration oracle: fetch succeeds with `goodResponse`, all sends succeed. -/
def envAllOk : IterEnv :=
  ⟨FetchOutcome.response 200 (Except.ok goodResponse),
   SendOutcome.success, SendOutcome.success, SendOutcome.success⟩

/-- Iteration oracle: fetch succeeds with `emptyResponse`, all sends succeed. -/
def envEmptyOk : IterEnv :=
  ⟨FetchOutcome.response 200 (Except.ok emptyResponse),
   SendOutcome.success, SendOutcome.success, SendOutcome.success⟩

/-- Iteration oracle: fetch succeeds with `emptyResponse` but the recovery
send raises inside the Telegram client. -/
def envRecoveryFail : IterEnv :=
  ⟨FetchOutcome.response 200 (Except.ok emptyResponse),
   SendOutcome.success, SendOutcome.apiException "telegram down", SendOutcome.success⟩

/-- Loop state at the start of `main`'s loop (timestamp 900). -/
def initState : LoopState := ⟨900, Option.none, PyVal.pnone⟩

/-- Loop state tracking a previously reported error message. -/
def errState : LoopState := ⟨900, some "boom", PyVal.pnone⟩

/-- The notification text of the spec's end-to-end scenario. -/
def approvedMsg : String :=
  "Изменился статус проверки работы \"hw1\". Работа проверена: ревьюеру всё понравилось. Ура!"

/-- Helper: the fetch of `get_api_answer` always issues exactly one HTTP
request with the given `from_date`, whatever its outcome. -/
lemma get_api_answer_events (fo : FetchOutcome) (c : Config) (t : Int) :
    (get_api_answer fo c t).2 = [Event.fetch t] := by
  unfold get_api_answer
  cases fo with
  | requestException m => rfl
  | response code body =>
    by_cases h : code = 200
    · subst h
      cases body <;> simp
    · simp [h]

/-- Helper: the trace of one `process_homeworks` call is the fetch event
possibly followed by a single status send; it never contains recovery or
error-notice sends and never a second fetch. -/
lemma process_homeworks_events_shape (fo : FetchOutcome) (so : SendOutcome) (c : Config)
    (t : Int) (last : PyVal) :
    (process_homeworks fo so c t last).2 = [Event.fetch t] ∨
    ∃ m b, (process_homeworks fo so c t last).2 =
      [Event.fetch t, Event.send SendKind.status m b] := by
  unfold process_homeworks
  have hev := get_api_answer_events fo c t
  split
  next e ev heq =>
    rw [heq] at hev
    simp only at hev
    subst hev
    left
    rfl
  next response ev heq =>
    rw [heq] at hev
    simp only at hev
    subst hev
    split
    next e heq2 => left; rfl
    next homeworks heq2 =>
      split
      next homework tl =>
        split
        next e heq3 => left; rfl
        next current_status heq3 =>
          split
          next hne =>
            split
            next e heq4 => left; rfl
            next message heq4 =>
              right
              refine ⟨message, sendOk so message, ?_⟩
              by_cases hok : sendOk so message = true <;> simp [hok]
          next hne => left; rfl
      next => left; rfl

/-- Helper: send counting distributes over trace concatenation. -/
lemma countSends_append (a b : List Event) (k : SendKind) :
    countSends (a ++ b) k = countSends a k + countSends b k := by
  simp [countSends, List.filter_append]

/-- Helper: Python falsiness of an env value is absence or emptiness. -/
lemma pyTruthy_eq_false (x : Option String) :
    pyTruthy x = false ↔ (x = Option.none ∨ x = some "") := by
  cases x with
  | none => simp [pyTruthy]
  | some s =>
    by_cases h : s = ""
    · subst h; simp [pyTruthy]
    · simp [pyTruthy, h]

/-- Helper: closed form of the `missing_tokens` comprehension. -/
lemma missing_tokens_eq (c : Config) :
    missing_tokens c =
      (if pyTruthy c.PRACTICUM_TOKEN then [] else ["PRACTICUM_TOKEN"]) ++
      (if pyTruthy c.TELEGRAM_TOKEN then [] else ["TELEGRAM_TOKEN"]) ++
      (if pyTruthy c.TELEGRAM_CHAT_ID then [] else ["TELEGRAM_CHAT_ID"]) := by
  cases hp : pyTruthy c.PRACTICUM_TOKEN <;>
    cases ht : pyTruthy c.TELEGRAM_TOKEN <;>
      cases hi : pyTruthy c.TELEGRAM_CHAT_ID <;>
        simp [missing_tokens, tokens, List.filter, hp, ht, hi]

/-- Helper: every element of a list occurs verbatim in its comma join. -/
lemma strContains_joinComma (m : String) (l : List String) (hm : m ∈ l) :
    strContains (joinComma l) m := by
  induction l with
  | nil => cases hm
  | cons x xs ih =>
    cases xs with
    | nil =>
      rcases List.mem_cons.mp hm with rfl | hm2
      · exact ⟨[], [], by simp [joinComma]⟩
      · cases hm2
    | cons y ys =>
      rcases List.mem_cons.mp hm with rfl | hm2
      · refine ⟨[], (", " ++ joinComma (y :: ys)).data, ?_⟩
        simp [joinComma, String.data_append]
      · rcases ih hm2 with ⟨pre, post, hp⟩
        refine ⟨(x ++ ", ").data ++ pre, post, ?_⟩
        simp [joinComma, String.data_append, hp]

/-- Helper: a string occurs in any left extension of a string containing it. -/
lemma strContains_append_left (a : String) {s sub : String} (h : strContains s sub) :
    strContains (a ++ s) sub := by
  rcases h with ⟨pre, post, hp⟩
  exact ⟨a.data ++ pre, post, by simp [String.data_append, hp]⟩

/-- Helper: the trace of `handle_recovery` is empty or one recovery send. -/
lemma handle_recovery_events (so : SendOutcome) (pe : Option String) :
    (handle_recovery so pe).2 = [] ∨
    ∃ m b, (handle_recovery so pe).2 = [Event.send SendKind.recovery m b] := by
  unfold handle_recovery
  by_cases h : pyTruthy pe = true
  · simp [h]
  · simp [h]

/-- Helper: the trace of `handle_error` is empty or one error-notice send. -/
lemma handle_error_events (so : SendOutcome) (er : PyError) (pe : Option String) :
    (handle_error so er pe).2 = [] ∨
    ∃ m b, (handle_error so er pe).2 = [Event.send SendKind.errorNotice m b] := by
  unfold handle_error
  by_cases h : some er.str ≠ pe
  · rw [if_pos h]
    by_cases hok : sendOk so ("Сбой в работе программы: " ++ PyError.str er) = true <;>
      simp [hok]
  · rw [if_neg h]
    simp

/-- Helper: one loop iteration preserves the polling timestamp, and every
fetch event it emits carries that timestamp. -/
lemma mainStep_timestamp (env : IterEnv) (c : Config) (s : LoopState) :
    (mainStep env c s).1.current_timestamp = s.current_timestamp ∧
    ∀ e ∈ (mainStep env c s).2, ∀ t : Int, e = Event.fetch t → t = s.current_timestamp := by
  unfold mainStep
  have hshape := process_homeworks_events_shape env.fetch env.sendStatus c
    s.current_timestamp s.last_homework_status
  rcases hps : process_homeworks env.fetch env.sendStatus c s.current_timestamp
      s.last_homework_status with ⟨r, ev⟩
  rw [hps] at hshape
  simp only at hshape
  cases r with
  | ok v =>
    refine ⟨rfl, ?_⟩
    intro e he t hef
    subst hef
    simp only [List.mem_append] at he
    rcases he with he | he
    · rcases hshape with h1 | ⟨m, b, h2⟩
      · rw [h1] at he; simp at he; exact he
      · rw [h2] at he; simp at he; exact he
    · rcases handle_recovery_events env.sendRecovery s.previous_error with h1 | ⟨m, b, h1⟩ <;>
        rw [h1] at he <;> simp at he
  | error er =>
    refine ⟨rfl, ?_⟩
    intro e he t hef
    subst hef
    simp only [List.mem_append] at he
    rcases he with he | he
    · rcases hshape with h1 | ⟨m, b, h2⟩
      · rw [h1] at he; simp at he; exact he
      · rw [h2] at he; simp at he; exact he
    · rcases handle_error_events env.sendError er s.previous_error with h1 | ⟨m, b, h1⟩ <;>
        rw [h1] at he <;> simp at he

/-- Helper: over any finite run of the loop the timestamp is invariant and
every fetch uses it. -/
lemma runLoop_timestamp (c : Config) (envs : List IterEnv) (s : LoopState) :
    (runLoop c envs s).1.current_timestamp = s.current_timestamp ∧
    ∀ e ∈ (runLoop c envs s).2, ∀ t : Int, e = Event.fetch t → t = s.current_timestamp := by
  induction envs generalizing s with
  | nil => exact ⟨rfl, by simp [runLoop]⟩
  | cons env rest ih =>
    have hstep := mainStep_timestamp env c s
    have hrest := ih (mainStep env c s).1
    constructor
    · show (runLoop c (env :: rest) s).1.current_timestamp = s.current_timestamp
      unfold runLoop
      simp only
      rw [hrest.1, hstep.1]
    · intro e he t hef
      unfold runLoop at he
      simp only [List.mem_append] at he
      rcases he with he | he
      · exact hstep.2 e he t hef
      · have h2 := hrest.2 e he t hef
        rw [h2, hstep.1]

/-- Claim C1 (code-bug exhibit): in the spec's end-to-end scenario (API
returns one homework with status `approved`, nothing tracked, all sends
succeed) `process_homeworks` returns the new status and exactly one
status notification is sent, yet after the iteration the loop's tracked
status is still unset, because `main` discards the function's return
value; a second identical iteration therefore re-sends the same
notification instead of suppressing it. -/
theorem c1_loop_discards_updated_status :
    (process_homeworks envAllOk.fetch envAllOk.sendStatus cfgAll 900 PyVal.pnone).1 =
      Except.ok (PyVal.str "approved") ∧
    countSends (mainStep envAllOk cfgAll initState).2 SendKind.status = 1 ∧
    (mainStep envAllOk cfgAll initState).1.last_homework_status = PyVal.pnone ∧
    countSends (runLoop cfgAll [envAllOk, envAllOk] initState).2 SendKind.status = 2 := by
  decide

/-- Claim C2 counterexample: an iteration that completes without
exception while the tracked previous error is `"boom"` and whose recovery
send fails still clears the tracked previous-error state to `None`,
refuting the claim that a failed recovery send leaves the previous-error
message unchanged (the `return None` in `handle_recovery` is outside the
`if send_message(...)` block). -/
theorem c2_counterexample :
    sendOk (SendOutcome.apiException "telegram down") "Ошибка исправлена: boom" = false ∧
    isErr (process_homeworks envRecoveryFail.fetch envRecoveryFail.sendStatus cfgAll 900
      PyVal.pnone).1 = false ∧
    (mainStep envRecoveryFail cfgAll errState).1.previous_error = Option.none ∧
    Option.none ≠ (some "boom" : Option String) := by
  decide

/-- Claim C2 (amended): for every iteration that completes without
exception immediately after an iteration that set a previous-error
message, exactly one recovery notice containing the prior error text is
sent, and the tracked previous-error state is cleared unconditionally,
whether or not that recovery send succeeded. -/
theorem c2_recovery_notice_and_unconditional_clear (env : IterEnv) (c : Config)
    (s : LoopState) (pe : String)
    (hpe : s.previous_error = some pe) (hne : pe ≠ "")
    (hok : isErr (process_homeworks env.fetch env.sendStatus c s.current_timestamp
      s.last_homework_status).1 = false) :
    (mainStep env c s).1.previous_error = Option.none ∧
    countSends (mainStep env c s).2 SendKind.recovery = 1 ∧
    Event.send SendKind.recovery ("Ошибка исправлена: " ++ pe)
      (sendOk env.sendRecovery ("Ошибка исправлена: " ++ pe)) ∈ (mainStep env c s).2 := by
  have hr : handle_recovery env.sendRecovery s.previous_error =
      (Option.none,
       [Event.send SendKind.recovery ("Ошибка исправлена: " ++ pe)
         (sendOk env.sendRecovery ("Ошибка исправлена: " ++ pe))]) := by
    rw [hpe]
    simp [handle_recovery, pyTruthy, optEnvStr, hne]
  have hshape := process_homeworks_events_shape env.fetch env.sendStatus c
    s.current_timestamp s.last_homework_status
  unfold mainStep
  split
  next a ev1 heq =>
    rw [heq] at hshape
    simp only at hshape
    rw [hr]
    refine ⟨rfl, ?_, ?_⟩
    · rw [countSends_append]
      have h0 : countSends ev1 SendKind.recovery = 0 := by
        rcases hshape with h1 | ⟨m, b, h1⟩ <;> rw [h1] <;> simp [countSends]
      rw [h0]
      simp [countSends]
    · simp
  next e ev1 heq =>
    rw [heq] at hok
    simp [isErr] at hok

/-- Claim C2 witness: the amended statement at a concrete exception-free
iteration following the tracked error `"boom"`. -/
theorem c2_witness :
    (mainStep envEmptyOk cfgAll errState).1.previous_error = Option.none ∧
    countSends (mainStep envEmptyOk cfgAll errState).2 SendKind.recovery = 1 ∧
    Event.send SendKind.recovery ("Ошибка исправлена: " ++ "boom")
      (sendOk envEmptyOk.sendRecovery ("Ошибка исправлена: " ++ "boom")) ∈
      (mainStep envEmptyOk cfgAll errState).2 :=
  c2_recovery_notice_and_unconditional_clear envEmptyOk cfgAll errState "boom"
    rfl (by decide) (by decide)

/-- Claim C3: for every error raised inside an iteration, if its string
form equals the tracked previous-error message no notification is
attempted and the tracked message is unchanged; if it differs, exactly
one notification is attempted and the tracked message is updated to the
new error string exactly when that send succeeds. -/
theorem c3_handle_error_dedup (so : SendOutcome) (er : PyError) (pe : Option String) :
    (some (PyError.str er) = pe →
      (handle_error so er pe).1 = pe ∧ (handle_error so er pe).2 = []) ∧
    (some (PyError.str er) ≠ pe →
      countSends (handle_error so er pe).2 SendKind.errorNotice = 1 ∧
      (sendOk so ("Сбой в работе программы: " ++ PyError.str er) = true →
        (handle_error so er pe).1 = some (PyError.str er)) ∧
      (sendOk so ("Сбой в работе программы: " ++ PyError.str er) = false →
        (handle_error so er pe).1 = pe)) := by
  constructor
  · intro h
    constructor <;> simp [handle_error, h]
  · intro h
    refine ⟨?_, ?_, ?_⟩ <;>
      by_cases hok : sendOk so ("Сбой в работе программы: " ++ PyError.str er) = true <;>
        simp [handle_error, h, hok, countSends]

/-- Claim C3 witness: a fresh error with a succeeding send is notified
once and becomes the tracked message. -/
theorem c3_witness :
    countSends (handle_error SendOutcome.success (PyError.valueError "boom") Option.none).2
      SendKind.errorNotice = 1 ∧
    (handle_error SendOutcome.success (PyError.valueError "boom") Option.none).1 = some "boom" := by
  have h := (c3_handle_error_dedup SendOutcome.success (PyError.valueError "boom") Option.none).2
    (by decide)
  exact ⟨h.1, h.2.1 (by decide)⟩

/-- Claim C4: whenever at least one of the three required secrets is
absent or empty, `check_tokens` returns false and emits a critical log
line containing each missing variable name; when all three are non-empty
it returns true; and whenever it returns false, `main` raises `TokenError`
before entering the loop. -/
theorem c4_check_tokens_gate (c : Config) :
    (((c.PRACTICUM_TOKEN = Option.none ∨ c.PRACTICUM_TOKEN = some "") ∨
      (c.TELEGRAM_TOKEN = Option.none ∨ c.TELEGRAM_TOKEN = some "") ∨
      (c.TELEGRAM_CHAT_ID = Option.none ∨ c.TELEGRAM_CHAT_ID = some "")) →
      (check_tokens c).1 = false ∧
      ∃ msg, (LogLevel.critical, msg) ∈ (check_tokens c).2 ∧
        ∀ name ∈ missing_tokens c, strContains msg name) ∧
    ((¬(c.PRACTICUM_TOKEN = Option.none ∨ c.PRACTICUM_TOKEN = some "")) ∧
     (¬(c.TELEGRAM_TOKEN = Option.none ∨ c.TELEGRAM_TOKEN = some "")) ∧
     (¬(c.TELEGRAM_CHAT_ID = Option.none ∨ c.TELEGRAM_CHAT_ID = some "")) →
      (check_tokens c).1 = true) ∧
    ((check_tokens c).1 = false →
      ∀ now envs, mainProgram c now envs = Except.error PyError.tokenError) := by
  refine ⟨?_, ?_, ?_⟩
  · intro h
    have hne : missing_tokens c ≠ [] := by
      rw [missing_tokens_eq]
      rcases h with h | h | h
      · rw [(pyTruthy_eq_false _).mpr h]
        simp
      · rw [(pyTruthy_eq_false _).mpr h]
        cases pyTruthy c.PRACTICUM_TOKEN <;> simp
      · rw [(pyTruthy_eq_false _).mpr h]
        cases pyTruthy c.PRACTICUM_TOKEN <;> cases pyTruthy c.TELEGRAM_TOKEN <;> simp
    refine ⟨by simp [check_tokens, hne], ?_⟩
    refine ⟨"Отсутствуют обязательные токены: " ++ joinComma (missing_tokens c), ?_, ?_⟩
    · simp [check_tokens, hne]
    · intro name hmem
      exact strContains_append_left _ (strContains_joinComma name _ hmem)
  · rintro ⟨h1, h2, h3⟩
    have p1 : pyTruthy c.PRACTICUM_TOKEN = true := by
      cases hp : pyTruthy c.PRACTICUM_TOKEN
      · exact absurd ((pyTruthy_eq_false _).mp hp) h1
      · rfl
    have p2 : pyTruthy c.TELEGRAM_TOKEN = true := by
      cases hp : pyTruthy c.TELEGRAM_TOKEN
      · exact absurd ((pyTruthy_eq_false _).mp hp) h2
      · rfl
    have p3 : pyTruthy c.TELEGRAM_CHAT_ID = true := by
      cases hp : pyTruthy c.TELEGRAM_CHAT_ID
      · exact absurd ((pyTruthy_eq_false _).mp hp) h3
      · rfl
    have hmt : missing_tokens c = [] := by
      rw [missing_tokens_eq, p1, p2, p3]
      simp
    simp [check_tokens, hmt]
  · intro h now envs
    unfold mainProgram
    rw [if_pos h]

/-- Claim C4 witness: a configuration missing `PRACTICUM_TOKEN` (and
with an empty `TELEGRAM_CHAT_ID`) fails the check and aborts `main`. -/
theorem c4_witness :
    (check_tokens ⟨Option.none, some "t", some ""⟩).1 = false ∧
    mainProgram ⟨Option.none, some "t", some ""⟩ 900 [] = Except.error PyError.tokenError := by
  have h := c4_check_tokens_gate ⟨Option.none, some "t", some ""⟩
  have h1 := h.1 (Or.inl (Or.inl rfl))
  exact ⟨h1.1, h.2.2 h1.1 900 []⟩

/-- Helper: membership in the `HOMEWORK_VERDICTS` table is exactly the
three-status enumeration. -/
lemma verdicts_lookup_isNone (s : String) :
    (HOMEWORK_VERDICTS.lookup s).isNone =
      !(s == "approved" || s == "reviewing" || s == "rejected") := by
  by_cases h1 : s = "approved"
  · subst h1; rfl
  · by_cases h2 : s = "reviewing"
    · subst h2; rfl
    · by_cases h3 : s = "rejected"
      · subst h3; rfl
      · have b1 : (s == "approved") = false := by simp [h1]
        have b2 : (s == "reviewing") = false := by simp [h2]
        have b3 : (s == "rejected") = false := by simp [h3]
        simp [HOMEWORK_VERDICTS, List.lookup, b1, b2, b3]

/-- Claim C5: `check_response` fails if and only if the response is not
a mapping, lacks the key `homeworks` or the key `current_date`, or has a
`homeworks` value that is not a sequence (the spec-side predicate
`spec_validate_fails`); otherwise it returns the raw `homeworks` sequence
unchanged. -/
theorem c5_check_response_schema (response : PyVal) :
    (isErr (check_response response) = true ↔ spec_validate_fails response = true) ∧
    (spec_validate_fails response = false →
      ∃ es hs, response = PyVal.dict es ∧ es.lookup "homeworks" = some (PyVal.list hs) ∧
        check_response response = Except.ok hs) := by
  cases response with
  | pnone =>
    exact ⟨by simp [check_response, spec_validate_fails, isErr],
      fun hgood => by simp [spec_validate_fails] at hgood⟩
  | int n =>
    exact ⟨by simp [check_response, spec_validate_fails, isErr],
      fun hgood => by simp [spec_validate_fails] at hgood⟩
  | str s =>
    exact ⟨by simp [check_response, spec_validate_fails, isErr],
      fun hgood => by simp [spec_validate_fails] at hgood⟩
  | list xs =>
    exact ⟨by simp [check_response, spec_validate_fails, isErr],
      fun hgood => by simp [spec_validate_fails] at hgood⟩
  | dict es =>
    rcases h1 : es.lookup "homeworks" with _ | v
    · exact ⟨by simp [check_response, spec_validate_fails, h1, isErr],
        fun hgood => by simp [spec_validate_fails, h1] at hgood⟩
    · rcases h2 : es.lookup "current_date" with _ | w
      · exact ⟨by simp [check_response, spec_validate_fails, h1, h2, isErr],
          fun hgood => by simp [spec_validate_fails, h1, h2] at hgood⟩
      · cases v with
        | list hs =>
          refine ⟨by simp [check_response, spec_validate_fails, h1, h2, isErr], ?_⟩
          intro hgood
          exact ⟨es, hs, rfl, h1, by simp [check_response, h1, h2]⟩
        | pnone =>
          exact ⟨by simp [check_response, spec_validate_fails, h1, h2, isErr],
            fun hgood => by simp [spec_validate_fails, h1, h2] at hgood⟩
        | int n =>
          exact ⟨by simp [check_response, spec_validate_fails, h1, h2, isErr],
            fun hgood => by simp [spec_validate_fails, h1, h2] at hgood⟩
        | str t =>
          exact ⟨by simp [check_response, spec_validate_fails, h1, h2, isErr],
            fun hgood => by simp [spec_validate_fails, h1, h2] at hgood⟩
        | dict ds =>
          exact ⟨by simp [check_response, spec_validate_fails, h1, h2, isErr],
            fun hgood => by simp [spec_validate_fails, h1, h2] at hgood⟩

/-- Claim C5 witness: the equivalence and the raw-sequence return at a
concrete well-formed response. -/
theorem c5_witness :
    (isErr (check_response goodResponse) = true ↔ spec_validate_fails goodResponse = true) ∧
    (∃ es hs, goodResponse = PyVal.dict es ∧ es.lookup "homeworks" = some (PyVal.list hs) ∧
      check_response goodResponse = Except.ok hs) :=
  ⟨(c5_check_response_schema goodResponse).1,
   (c5_check_response_schema goodResponse).2 (by decide)⟩

/-- Claim C6: `parse_status` fails exactly on the spec-side predicate
`spec_format_fails` (not a mapping, missing `homework_name` or `status`,
or a status outside the three-verdict enumeration), and on every valid
input returns exactly the fixed template populated with the given name
and the verdict sentence of its status. -/
theorem c6_parse_status_format (homework : PyVal) :
    (isErr (parse_status homework) = true ↔ spec_format_fails homework = true) ∧
    (∀ es nameVal s verdict,
      homework = PyVal.dict es →
      es.lookup "homework_name" = some nameVal →
      es.lookup "status" = some (PyVal.str s) →
      HOMEWORK_VERDICTS.lookup s = some verdict →
      parse_status homework =
        Except.ok ("Изменился статус проверки работы \"" ++ PyVal.pyStr nameVal ++
          "\". " ++ verdict)) := by
  constructor
  · cases homework with
    | pnone => simp [parse_status, spec_format_fails, isErr]
    | int n => simp [parse_status, spec_format_fails, isErr]
    | str s => simp [parse_status, spec_format_fails, isErr]
    | list xs => simp [parse_status, spec_format_fails, isErr]
    | dict es =>
      rcases h1 : es.lookup "homework_name" with _ | nv
      · simp [parse_status, spec_format_fails, h1, isErr]
      · rcases h2 : es.lookup "status" with _ | sv
        · simp [parse_status, spec_format_fails, h1, h2, isErr]
        · cases sv with
          | str s =>
            rcases hv : HOMEWORK_VERDICTS.lookup s with _ | verdict
            · have hb := verdicts_lookup_isNone s
              rw [hv] at hb
              simp only [Option.isNone_none] at hb
              simp [parse_status, spec_format_fails, h1, h2, hv, isErr, ← hb]
            · have hb := verdicts_lookup_isNone s
              rw [hv] at hb
              simp only [Option.isNone_some] at hb
              simp [parse_status, spec_format_fails, h1, h2, hv, isErr, ← hb]
          | pnone => simp [parse_status, spec_format_fails, h1, h2, isErr]
          | int n => simp [parse_status, spec_format_fails, h1, h2, isErr]
          | list xs => simp [parse_status, spec_format_fails, h1, h2, isErr]
          | dict ds => simp [parse_status, spec_format_fails, h1, h2, isErr]
  · intro es nv s verdict hhw h1 h2 hv
    subst hhw
    simp [parse_status, h1, h2, hv]

/-- Claim C6 witness: the record named `hw1` with status `approved`
formats to exactly the notification text of the spec's scenario. -/
theorem c6_witness :
    parse_status hw1 = Except.ok approvedMsg := by
  have h := (c6_parse_status_format hw1).2
    (.dcons "homework_name" (PyVal.str "hw1") (.dcons "status" (PyVal.str "approved") .dnil))
    (PyVal.str "hw1") "approved" "Работа проверена: ревьюеру всё понравилось. Ура!"
    rfl (by decide) (by decide) (by decide)
  exact h.trans (by decide)

/-- Claim C7: `send_message` is total over every outcome of the
underlying Telegram send (success, API failure, transport failure) — the
embedded form of never raising to its caller — returning true exactly on
success and converting either failure into false plus one error-level
log diagnostic. -/
theorem c7_send_message_total (o : SendOutcome) (m : String) :
    ((send_message o m).1 = true ↔ o = SendOutcome.success) ∧
    (∀ e, bot_send_message o = Except.error e →
      (send_message o m).1 = false ∧
      ∃ d, (send_message o m).2 = [(LogLevel.error, d)]) := by
  cases o with
  | success =>
    refine ⟨by simp [send_message, bot_send_message], ?_⟩
    intro e he
    simp [bot_send_message] at he
  | apiException msg =>
    refine ⟨by simp [send_message, bot_send_message], ?_⟩
    intro e he
    exact ⟨by simp [send_message, bot_send_message],
      ⟨"Ошибка Telegram API при отправке сообщения: " ++ msg,
       by simp [send_message, bot_send_message]⟩⟩
  | requestException msg =>
    refine ⟨by simp [send_message, bot_send_message], ?_⟩
    intro e he
    exact ⟨by simp [send_message, bot_send_message],
      ⟨"Сетевая ошибка при отправке сообщения в Telegram: " ++ msg,
       by simp [send_message, bot_send_message]⟩⟩

/-- Claim C7 witness: an API failure is converted into false plus a
logged diagnostic. -/
theorem c7_witness :
    (send_message (SendOutcome.apiException "boom") "hello").1 = false ∧
    ∃ d, (send_message (SendOutcome.apiException "boom") "hello").2 = [(LogLevel.error, d)] :=
  (c7_send_message_total (SendOutcome.apiException "boom") "hello").2
    (SendError.apiException "boom") rfl

/-- Claim C8: in every iteration whose fetch yields a well-formed
response with an empty `homeworks` sequence, `process_homeworks` sends no
notification and returns the tracked last-homework status unchanged. -/
theorem c8_empty_homeworks (fo : FetchOutcome) (so : SendOutcome) (c : Config)
    (t : Int) (last : PyVal) (r : PyVal)
    (hf : (get_api_answer fo c t).1 = Except.ok r)
    (hcr : check_response r = Except.ok PyList.nil) :
    process_homeworks fo so c t last = (Except.ok last, [Event.fetch t]) := by
  have hev := get_api_answer_events fo c t
  have hga : get_api_answer fo c t = (Except.ok r, [Event.fetch t]) := by
    rcases hp : get_api_answer fo c t with ⟨a, b⟩
    rw [hp] at hf hev
    simp only at hf hev
    rw [hf, hev]
  unfold process_homeworks
  rw [hga]
  simp [hcr]

/-- Claim C8 witness: the empty-homeworks response leaves the tracked
status `approved` unchanged and emits only the fetch event. -/
theorem c8_witness :
    process_homeworks (FetchOutcome.response 200 (Except.ok emptyResponse)) SendOutcome.success
      cfgAll 900 (PyVal.str "approved") =
      (Except.ok (PyVal.str "approved"), [Event.fetch 900]) :=
  c8_empty_homeworks _ _ _ _ _ emptyResponse (by decide) (by decide)

/-- Claim C9: the polling timestamp is a loop invariant — for every run
of `main`, every fetch event carries the `from_date` captured once before
the loop, and the final state still holds that timestamp; no iteration
ever advances it. -/
theorem c9_from_date_loop_invariant (c : Config) (now : Int) (envs : List IterEnv)
    (st : LoopState) (evs : List Event)
    (h : mainProgram c now envs = Except.ok (st, evs)) :
    st.current_timestamp = now ∧
    ∀ e ∈ evs, ∀ t : Int, e = Event.fetch t → t = now := by
  unfold mainProgram at h
  by_cases hck : (check_tokens c).1 = false
  · rw [if_pos hck] at h
    cases h
  · rw [if_neg hck] at h
    injection h with h2
    have hrun := runLoop_timestamp c envs ⟨now, Option.none, PyVal.pnone⟩
    rw [h2] at hrun
    simp only at hrun
    exact hrun

/-- Claim C9 witness: the invariant instantiated at a concrete
one-iteration run. -/
theorem c9_witness :
    (⟨900, Option.none, PyVal.pnone⟩ : LoopState).current_timestamp = 900 :=
  (c9_from_date_loop_invariant cfgAll 900 [envAllOk] ⟨900, Option.none, PyVal.pnone⟩
    [Event.fetch 900, Event.send SendKind.status approvedMsg true] (by decide)).1

/-- Claim C10: the iteration compares the first record's raw
`get("status")` value (missing key read as `None`) with the tracked
status before any record validation, so whenever that raw value equals
the tracked status the iteration sends nothing and raises no schema
error, returning the tracked status unchanged. -/
theorem c10_raw_status_comparison (fo : FetchOutcome) (so : SendOutcome) (c : Config)
    (t : Int) (last : PyVal) (r : PyVal) (hw : PyVal) (rest : PyList)
    (hf : (get_api_answer fo c t).1 = Except.ok r)
    (hcr : check_response r = Except.ok (PyList.cons hw rest))
    (hdg : hw.dget "status" = Except.ok last) :
    process_homeworks fo so c t last = (Except.ok last, [Event.fetch t]) := by
  have hev := get_api_answer_events fo c t
  have hga : get_api_answer fo c t = (Except.ok r, [Event.fetch t]) := by
    rcases hp : get_api_answer fo c t with ⟨a, b⟩
    rw [hp] at hf hev
    simp only at hf hev
    rw [hf, hev]
  unfold process_homeworks
  rw [hga]
  simp [hcr, hdg]

/-- Claim C10 witness: a first record that is a mapping without
`status`, with nothing tracked, silently counts as unchanged — no
notification and no schema error despite the formatter contract. -/
theorem c10_witness :
    process_homeworks (FetchOutcome.response 200 (Except.ok respNoStatus)) SendOutcome.success
      cfgAll 900 PyVal.pnone = (Except.ok PyVal.pnone, [Event.fetch 900]) :=
  c10_raw_status_comparison _ _ _ _ _ respNoStatus hwNoStatus PyList.nil
    (by decide) (by decide) (by decide)
